import Mathlib

/-!
Verification of the task-configuration layer in `src/models/tasks.py`
(Homekit2020): a shallow embedding of the module's data model and of the
split-policy algorithms, followed by theorems settling the spec's claims.

Modelling conventions:
* `ParticipantID` is a natural number; timestamps are integers counting
  minutes since the epoch, so day granularity is 1440 minutes and
  pandas' `.dt.floor("D")` is flooring division by 1440.
* Python floats are modelled by rationals; Python `int()` on a float is
  truncation toward zero.
* A Python object's attribute that may or may not be defined is an
  `Option`: `none` means the attribute was never assigned
  (accessing it would raise `AttributeError`).
* `dataset_args` is an association list consumed by `pop`, mirroring
  the destructive `dict.pop(key, default)` pattern of the source.
* The external collaborators (`td.LabResultsReader`,
  `td.MinuteLevelActivityReader`, the dataset constructors and
  `classification_eval`) are out of scope per the spec; readers are
  abstracted by an environment of constructor functions, and datasets
  record exactly the arguments the source passes to them.
-/

namespace Homekit

/-- Participant identifier (opaque; modelled as a natural number). -/
abbrev Pid := Nat

/-- A timestamp, in minutes since the epoch. -/
abbrev Timestamp := Int

/-- A ParticipantDate pair: the atomic unit of split assignment. -/
abbrev PD := Pid × Timestamp

/-- Minutes in a day: day granularity for `DateKey`s. -/
def minutesPerDay : Int := 1440

/-- The timestamp of midnight of calendar day `d` (days since epoch). -/
def dayTs (d : Int) : Timestamp := d * minutesPerDay

/-- pandas `Series.dt.floor("D")` applied to one timestamp: floor to
day granularity (toward negative infinity, as pandas does). -/
def floorDay (t : Timestamp) : Timestamp := minutesPerDay * (Int.fdiv t minutesPerDay)

/-- A Python value as far as this module observes one: the values that
can appear in `dataset_args` or be defaulted to `None`. Floats are
modelled by rationals. -/
inductive PyValue where
  | vNone
  | vBool (b : Bool)
  | vInt (n : Int)
  | vRat (q : Rat)
  | vStr (s : String)
  deriving DecidableEq, Repr

/-- Python truthiness (`bool(v)`): `None`, `False`, `0`, `0.0` and the
empty string are falsy. -/
def PyValue.truthy : PyValue → Bool
  | .vNone => false
  | .vBool b => b
  | .vInt n => n != 0
  | .vRat q => q != 0
  | .vStr s => s != ""

/-- Coercion of a Python value to a number (as a rational), as Python
arithmetic such as `1 - eval_frac` would perform it; `none` models the
`TypeError` Python raises on a non-numeric operand. -/
def PyValue.asRat : PyValue → Option Rat
  | .vBool b => some (if b then 1 else 0)
  | .vInt n => some (n : Rat)
  | .vRat q => some q
  | _ => none

/-- Coercion of a Python value to an integer operand (for
`window_pad + day_window_size`); `none` models a `TypeError`. -/
def PyValue.asInt : PyValue → Option Int
  | .vBool b => some (if b then 1 else 0)
  | .vInt n => some n
  | _ => none

/-- The `dataset_args` configuration mapping (a Python dict keyed by
strings, modelled as an association list with at most one binding per
key in the intended use). -/
abbrev DatasetArgs := List (String × PyValue)

/-- `args.pop(key, dflt)`: the bound value (or the default when the key
is absent) together with the mapping with that binding removed. -/
def popArg (args : DatasetArgs) (key : String) (dflt : PyValue) : PyValue × DatasetArgs :=
  match args with
  | [] => (dflt, [])
  | (k, v) :: rest =>
    if k = key then (v, rest)
    else
      let (r, rest2) := popArg rest key dflt
      (r, (k, v) :: rest2)

/-- First binding of `key` in `args`, if any (dict lookup). -/
def lookupArg (args : DatasetArgs) (key : String) : Option PyValue :=
  match args with
  | [] => none
  | (k, v) :: rest => if k = key then some v else lookupArg rest key

/-- Python `int()` on a float: truncation toward zero. -/
def pyInt (q : Rat) : Int := if q < 0 then Int.ceil q else Int.floor q

/-- Python list slice `l[:k]` (negative `k` counts from the end,
clamped to an empty result below `-len`). -/
def pySliceTo {α : Type} (l : List α) (k : Int) : List α :=
  if k < 0 then l.take (l.length + k).toNat else l.take k.toNat

/-- Python list slice `l[k:]` (negative `k` counts from the end,
clamped to the whole list below `-len`). -/
def pySliceFrom {α : Type} (l : List α) (k : Int) : List α :=
  if k < 0 then l.drop (l.length + k).toNat else l.drop k.toNat

/-- External collaborator `td.LabResultsReader`: exposes the
participant ids and the results table. A result row is its index (the
participant id the row is keyed by) together with its
`trigger_datetime`. -/
structure LabResultsReader where
  participant_ids : List Pid
  results : List (Pid × Timestamp)

/-- External collaborator `td.MinuteLevelActivityReader`: exposes the
ValidDateSet `participant_dates` and the date-threshold splitting
helper `split_participant_dates(date, eval_frac)`. -/
structure MinuteLevelReader where
  participant_dates : List PD
  split_participant_dates : PyValue → PyValue → List PD × List PD

/-- The environment of external constructors the module calls into:
`td.LabResultsReader(pos_only=...)` and
`td.MinuteLevelActivityReader(participant_ids, min_date, max_date,
day_window_size, max_missing_days_in_window)`. -/
structure Env where
  mkLabResultsReader : Bool → LabResultsReader
  mkMinuteLevelReader : List Pid → PyValue → PyValue → PyValue → PyValue → MinuteLevelReader

/-- A constructed dataset object, recording exactly what the source
passes to the dataset constructor: which dataset class was used, the
two readers, the `participant_dates` list, and the leftover
`dataset_args` forwarded verbatim. -/
structure Dataset where
  kind : String
  minute_level_reader : MinuteLevelReader
  lab_results_reader : LabResultsReader
  participant_dates : List PD
  extra_args : DatasetArgs

/-- A constructed task object. The two flag fields model Python
attributes: `none` means the attribute was never assigned. -/
structure TaskObj where
  is_classification : Option Bool
  is_autoencoder : Option Bool
  train_dataset : Dataset
  eval_dataset : Dataset

/-- The errors the module can raise during construction or lookup. -/
inductive PyError where
  | keyError (msg : String)
  | typeError (msg : String)
  | nameError (msg : String)
  deriving DecidableEq, Repr

/-- The flag attributes of a bare `Task` object (no datasets). -/
structure TaskFlags where
  is_classification : Option Bool
  is_autoencoder : Option Bool
  deriving DecidableEq, Repr

/-- `SUPPORTED_TASK_TYPES` from the source. -/
def SUPPORTED_TASK_TYPES : List String := ["classification", "autoencoder"]

/-- `setattr(self, "is_" + task_type, b)` restricted to the supported
flag attributes. -/
def setFlag (o : TaskFlags) (task_type : String) (b : Bool) : TaskFlags :=
  if task_type = "classification" then { o with is_classification := some b }
  else if task_type = "autoencoder" then { o with is_autoencoder := some b }
  else o

/-- `Task.__init__`: sets `is_<t>` to `False` for each supported task
type. (No concrete task constructor in the source actually invokes
this: `MinuteLevelTask.__init__` and `EarlyDetection.__init__` never
call `super().__init__()`.) -/
def Task.init (o : TaskFlags) : TaskFlags :=
  SUPPORTED_TASK_TYPES.foldl (fun acc task_type => setFlag acc task_type false) o

/-- The success path of `MinuteLevelTask.__init__` once `split_date`
has been validated: build the two readers over all participants
(`pos_only=False`), delegate the split to
`split_participant_dates(split_date, eval_frac)`, and construct the
two datasets with the leftover args. `Task.__init__` is never called,
so neither flag attribute is assigned here. -/
def MinuteLevelTask.build (env : Env) (base_dataset : String)
    (split_date eval_frac min_date max_date day_window_size max_missing : PyValue)
    (leftover : DatasetArgs) : TaskObj :=
  let lrr := env.mkLabResultsReader false
  let mlr := env.mkMinuteLevelReader lrr.participant_ids min_date max_date day_window_size max_missing
  let split := mlr.split_participant_dates split_date eval_frac
  { is_classification := none
    is_autoencoder := none
    train_dataset := ⟨base_dataset, mlr, lrr, split.1, leftover⟩
    eval_dataset := ⟨base_dataset, mlr, lrr, split.2, leftover⟩ }

/-- `MinuteLevelTask.__init__(base_dataset, dataset_args)`: pops
`split_date` and `eval_frac`, raises `KeyError` when `split_date` is
falsy, pops the reader bounds, and runs the success path. -/
def MinuteLevelTask.init (env : Env) (base_dataset : String) (dataset_args : DatasetArgs) :
    Except PyError TaskObj :=
  let p1 := popArg dataset_args "split_date" .vNone
  let split_date := p1.1
  let p2 := popArg p1.2 "eval_frac" .vNone
  let eval_frac := p2.1
  if !split_date.truthy then
    .error (.keyError "Must provide a date for splitting train and ")
  else
    let p3 := popArg p2.2 "min_date" .vNone
    let p4 := popArg p3.2 "max_date" .vNone
    let p5 := popArg p4.2 "day_window_size" .vNone
    let p6 := popArg p5.2 "max_missing_days_in_window" .vNone
    .ok (MinuteLevelTask.build env base_dataset split_date eval_frac p3.1 p4.1 p5.1 p6.1 p6.2)

/-- `GeqMeanSteps.__init__`: delegates to `MinuteLevelTask.__init__`
with `td.MeanStepsDataset`, then sets `is_classification = True`. -/
def GeqMeanSteps.init (env : Env) (dataset_args : DatasetArgs) : Except PyError TaskObj :=
  match MinuteLevelTask.init env "MeanStepsDataset" dataset_args with
  | .error e => .error e
  | .ok t => .ok { t with is_classification := some true }

/-- `PredictFluPos.__init__`: delegates to `MinuteLevelTask.__init__`
with `td.MinuteLevelActivtyDataset` (name as spelled in the source),
then sets `is_classification = True`. -/
def PredictFluPos.init (env : Env) (dataset_args : DatasetArgs) : Except PyError TaskObj :=
  match MinuteLevelTask.init env "MinuteLevelActivtyDataset" dataset_args with
  | .error e => .error e
  | .ok t => .ok { t with is_classification := some true }

/-- `Autoencode.__init__`: delegates to `MinuteLevelTask.__init__`
with `td.AutoencodeDataset`, then sets `is_autoencoder = True`. -/
def Autoencode.init (env : Env) (dataset_args : DatasetArgs) : Except PyError TaskObj :=
  match MinuteLevelTask.init env "AutoencodeDataset" dataset_args with
  | .error e => .error e
  | .ok t => .ok { t with is_autoencoder := some true }

/-- The intermediate and final values of the EarlyDetection split
computation (source lines 145-166). -/
structure EDSplit where
  label_date : List PD
  after : List PD
  before : List PD
  new_valid_dates : List PD
  valid_participants : List Pid
  split_index : Int
  train_participants : List Pid
  eval_participants : List Pid
  train_participant_dates : List PD
  eval_participant_dates : List PD

/-- The EarlyDetection window/split computation: floor each positive
result's trigger timestamp to day granularity, form the three
per-result date families shifted by `delta = window_pad +
day_window_size` days, intersect their union with the ValidDateSet,
then partition the distinct participants at index
`int((1 - eval_frac) * n)` and filter the pairs by participant
membership. Python's set iteration order is modelled by `List.dedup`;
every property proved below is independent of that order. -/
def earlyDetectionSplit (results : List (Pid × Timestamp)) (window_pad day_window_size : Int)
    (orig_valid_dates : List PD) (eval_frac : Rat) : EDSplit :=
  let timestamps := results.map (fun r => (r.1, floorDay r.2))
  let delta := minutesPerDay * (window_pad + day_window_size)
  let label_date := timestamps
  let after := timestamps.map (fun x => (x.1, x.2 + delta))
  let before := timestamps.map (fun x => (x.1, x.2 - delta))
  let new_valid_dates :=
    ((label_date ++ after ++ before).dedup).filter (fun x => decide (x ∈ orig_valid_dates))
  let valid_participants := (new_valid_dates.map Prod.fst).dedup
  let n_valid_participants := valid_participants.length
  let split_index := pyInt ((1 - eval_frac) * (n_valid_participants : Rat))
  let train_participants := pySliceTo valid_participants split_index
  let eval_participants := pySliceFrom valid_participants split_index
  let train_participant_dates :=
    new_valid_dates.filter (fun x => decide (x.1 ∈ train_participants))
  let eval_participant_dates :=
    new_valid_dates.filter (fun x => decide (x.1 ∈ eval_participants))
  ⟨label_date, after, before, new_valid_dates, valid_participants, split_index,
   train_participants, eval_participants, train_participant_dates, eval_participant_dates⟩

/-- The success path of `EarlyDetection.__init__` once the
configuration has been read: build the positive-only readers, run the
split, construct the two `EarlyDetectionDataset`s, and set
`is_classification = True` (and nothing else: `Task.__init__` is never
called, so `is_autoencoder` is left unassigned). -/
def EarlyDetection.build (env : Env) (eval_frac : Rat) (window_pad day_window_size : Int)
    (min_date max_date dws_v max_missing : PyValue) (leftover : DatasetArgs) : TaskObj :=
  let lrr := env.mkLabResultsReader true
  let mlr := env.mkMinuteLevelReader lrr.participant_ids min_date max_date dws_v max_missing
  let s := earlyDetectionSplit lrr.results window_pad day_window_size mlr.participant_dates eval_frac
  { is_classification := some true
    is_autoencoder := none
    train_dataset := ⟨"EarlyDetectionDataset", mlr, lrr, s.train_participant_dates, leftover⟩
    eval_dataset := ⟨"EarlyDetectionDataset", mlr, lrr, s.eval_participant_dates, leftover⟩ }

/-- `EarlyDetection.__init__(dataset_args)`: pops `eval_frac` and
raises `KeyError` when it is falsy, pops the bounds and the window
parameters (defaults `day_window_size=4`, `window_pad=20`), then runs
the success path. The `typeError` branch models the `TypeError` Python
would raise downstream on non-numeric window/fraction values. -/
def EarlyDetection.init (env : Env) (dataset_args : DatasetArgs) : Except PyError TaskObj :=
  let p1 := popArg dataset_args "eval_frac" .vNone
  let eval_frac_v := p1.1
  if !eval_frac_v.truthy then
    .error (.keyError "Must provide an eval fraction for splitting train and test")
  else
    let p2 := popArg p1.2 "min_date" .vNone
    let p3 := popArg p2.2 "max_date" .vNone
    let p4 := popArg p3.2 "day_window_size" (.vInt 4)
    let p5 := popArg p4.2 "window_pad" (.vInt 20)
    let p6 := popArg p5.2 "max_missing_days_in_window" .vNone
    match eval_frac_v.asRat, p4.1.asInt, p5.1.asInt with
    | some eval_frac, some day_window_size, some window_pad =>
      .ok (EarlyDetection.build env eval_frac window_pad day_window_size
            p2.1 p3.1 p4.1 p6.1 p6.2)
    | _, _, _ => .error (.typeError "unsupported operand type for timedelta arithmetic")

/-- A module-level attribute as `getattr(sys.modules[__name__], name)`
observes it: a class (a `type`), a function, an imported module, or a
plain value. -/
inductive PyAttr where
  | classAttr (nm : String)
  | functionAttr (nm : String)
  | moduleAttr (nm : String)
  | listAttr (items : List String)
  deriving DecidableEq, Repr

/-- Python `isinstance(x, type)`. -/
def PyAttr.isType : PyAttr → Bool
  | .classAttr _ => true
  | _ => false

/-- The attribute namespace of the `tasks` module: the imports, the
module-level constant and function, and the five class definitions. -/
def moduleAttrs : List (String × PyAttr) :=
  [("sys", .moduleAttr "sys"),
   ("td", .moduleAttr "src.data.task_datasets"),
   ("classification_eval", .functionAttr "classification_eval"),
   ("pd", .moduleAttr "pandas"),
   ("SUPPORTED_TASK_TYPES", .listAttr SUPPORTED_TASK_TYPES),
   ("get_task_with_name", .functionAttr "get_task_with_name"),
   ("Task", .classAttr "Task"),
   ("MinuteLevelTask", .classAttr "MinuteLevelTask"),
   ("GeqMeanSteps", .classAttr "GeqMeanSteps"),
   ("PredictFluPos", .classAttr "PredictFluPos"),
   ("EarlyDetection", .classAttr "EarlyDetection"),
   ("Autoencode", .classAttr "Autoencode")]

/-- `get_task_with_name(name)`: look the name up among the module's
attributes; `NameError` when absent, the attribute itself when it is a
type, `TypeError` otherwise. A pure function: no side effects. -/
def get_task_with_name (name : String) : Except PyError PyAttr :=
  match moduleAttrs.lookup name with
  | none => .error (.nameError (name ++ " is not a valid task."))
  | some identifier =>
    if identifier.isType then .ok identifier
    else .error (.typeError (name ++ " is not a valid task."))

/-- The "prediction bundle" shape the external trainer hands to the
metrics adapter: an object with `label_ids` and `predictions`. -/
structure PredBundle where
  label_ids : List Int
  predictions : List Rat

/-- A binary-classification metrics report. -/
structure MetricsReport where
  true_pos : Nat
  false_pos : Nat
  true_neg : Nat
  false_neg : Nat
  deriving DecidableEq, Repr

/-- Modelled from the spec: `classification_eval(logits, labels,
threshold)` lives in `src/models/eval.py`, which is not part of this
repository snapshot; per the spec it "computes standard
binary-classification metrics from raw scores and threshold". Scores
are thresholded into 0/1 predictions and compared against the labels.
The adapter-equivalence claim is insensitive to the internals chosen
here. -/
def classification_eval (logits : List Rat) (labels : List Int) (threshold : Rat) :
    MetricsReport :=
  let preds := logits.map (fun l => if threshold ≤ l then (1 : Int) else 0)
  let pairs := preds.zip labels
  { true_pos := (pairs.filter (fun pl => pl.1 == 1 && pl.2 == 1)).length
    false_pos := (pairs.filter (fun pl => pl.1 == 1 && pl.2 != 1)).length
    true_neg := (pairs.filter (fun pl => pl.1 == 0 && pl.2 != 1)).length
    false_neg := (pairs.filter (fun pl => pl.1 == 0 && pl.2 == 1)).length }

/-- `GeqMeanSteps.evaluate_results`: forwards to `classification_eval`. -/
def GeqMeanSteps.evaluate_results (logits : List Rat) (labels : List Int) (threshold : Rat) :
    MetricsReport :=
  classification_eval logits labels threshold

/-- `GeqMeanSteps.get_huggingface_metrics(threshold)`: the closure
binding `threshold` that extracts `label_ids` and `predictions` from
the prediction bundle and forwards to `evaluate_results`. -/
def GeqMeanSteps.get_huggingface_metrics (threshold : Rat) : PredBundle → MetricsReport :=
  fun pred => GeqMeanSteps.evaluate_results pred.predictions pred.label_ids threshold

/-- `PredictFluPos.evaluate_results`: forwards to `classification_eval`. -/
def PredictFluPos.evaluate_results (logits : List Rat) (labels : List Int) (threshold : Rat) :
    MetricsReport :=
  classification_eval logits labels threshold

/-- `PredictFluPos.get_huggingface_metrics(threshold)`. -/
def PredictFluPos.get_huggingface_metrics (threshold : Rat) : PredBundle → MetricsReport :=
  fun pred => PredictFluPos.evaluate_results pred.predictions pred.label_ids threshold

/-- `EarlyDetection.evaluate_results`: forwards to `classification_eval`. -/
def EarlyDetection.evaluate_results (logits : List Rat) (labels : List Int) (threshold : Rat) :
    MetricsReport :=
  classification_eval logits labels threshold

/-- `EarlyDetection.get_huggingface_metrics(threshold)`. -/
def EarlyDetection.get_huggingface_metrics (threshold : Rat) : PredBundle → MetricsReport :=
  fun pred => EarlyDetection.evaluate_results pred.predictions pred.label_ids threshold

/-! ### Helper lemmas on the embedding -/

theorem popArg_lookup_none {args : DatasetArgs} {key : String} (dflt : PyValue)
    (h : lookupArg args key = none) : popArg args key dflt = (dflt, args) := by
  induction args with
  | nil => rfl
  | cons kv rest ih =>
    obtain ⟨k, w⟩ := kv
    simp only [lookupArg] at h
    by_cases hk : k = key
    · simp [hk] at h
    · rw [if_neg hk] at h
      simp only [popArg, if_neg hk]
      rw [ih h]

theorem popArg_lookup_some {args : DatasetArgs} {key : String} {v : PyValue} (dflt : PyValue)
    (h : lookupArg args key = some v) : (popArg args key dflt).1 = v := by
  induction args with
  | nil => simp [lookupArg] at h
  | cons kv rest ih =>
    obtain ⟨k, w⟩ := kv
    simp only [lookupArg] at h
    by_cases hk : k = key
    · subst hk
      rw [if_pos rfl] at h
      cases h
      simp [popArg]
    · rw [if_neg hk] at h
      have ih2 := ih h
      rcases hp : popArg rest key dflt with ⟨r0, rest0⟩
      rw [hp] at ih2
      simp only [popArg, if_neg hk, hp]
      exact ih2

theorem pySlice_take_drop {α : Type} (l : List α) (k : Int) :
    ∃ m, pySliceTo l k = l.take m ∧ pySliceFrom l k = l.drop m := by
  by_cases h : k < 0
  · exact ⟨(l.length + k).toNat, by simp [pySliceTo, h], by simp [pySliceFrom, h]⟩
  · exact ⟨k.toNat, by simp [pySliceTo, h], by simp [pySliceFrom, h]⟩

theorem edsplit_train_participants (results : List (Pid × Timestamp)) (wp dws : Int)
    (valid : List PD) (f : Rat) :
    (earlyDetectionSplit results wp dws valid f).train_participants
      = pySliceTo (earlyDetectionSplit results wp dws valid f).valid_participants
          (earlyDetectionSplit results wp dws valid f).split_index := rfl

theorem edsplit_eval_participants (results : List (Pid × Timestamp)) (wp dws : Int)
    (valid : List PD) (f : Rat) :
    (earlyDetectionSplit results wp dws valid f).eval_participants
      = pySliceFrom (earlyDetectionSplit results wp dws valid f).valid_participants
          (earlyDetectionSplit results wp dws valid f).split_index := rfl

theorem edsplit_split_index (results : List (Pid × Timestamp)) (wp dws : Int)
    (valid : List PD) (f : Rat) :
    (earlyDetectionSplit results wp dws valid f).split_index
      = pyInt ((1 - f) * ((earlyDetectionSplit results wp dws valid f).valid_participants.length : Rat)) := rfl

theorem edsplit_train_pd_eq (results : List (Pid × Timestamp)) (wp dws : Int)
    (valid : List PD) (f : Rat) :
    (earlyDetectionSplit results wp dws valid f).train_participant_dates
      = (earlyDetectionSplit results wp dws valid f).new_valid_dates.filter
          (fun x => decide (x.1 ∈ (earlyDetectionSplit results wp dws valid f).train_participants)) := rfl

theorem edsplit_eval_pd_eq (results : List (Pid × Timestamp)) (wp dws : Int)
    (valid : List PD) (f : Rat) :
    (earlyDetectionSplit results wp dws valid f).eval_participant_dates
      = (earlyDetectionSplit results wp dws valid f).new_valid_dates.filter
          (fun x => decide (x.1 ∈ (earlyDetectionSplit results wp dws valid f).eval_participants)) := rfl

theorem edsplit_nodup (results : List (Pid × Timestamp)) (wp dws : Int)
    (valid : List PD) (f : Rat) :
    (earlyDetectionSplit results wp dws valid f).valid_participants.Nodup :=
  List.nodup_dedup _

theorem mem_new_valid_dates (results : List (Pid × Timestamp)) (wp dws : Int)
    (valid : List PD) (f : Rat) (x : PD) :
    x ∈ (earlyDetectionSplit results wp dws valid f).new_valid_dates ↔
      x ∈ valid ∧ ∃ r ∈ results, x.1 = r.1 ∧
        (x.2 = floorDay r.2 ∨ x.2 = floorDay r.2 + minutesPerDay * (wp + dws)
          ∨ x.2 = floorDay r.2 - minutesPerDay * (wp + dws)) := by
  simp only [earlyDetectionSplit, List.mem_filter, List.mem_dedup, List.mem_append,
    List.mem_map, List.map_map, decide_eq_true_eq, Function.comp, Prod.ext_iff]
  aesop

theorem mem_edsplit_train_pd (results : List (Pid × Timestamp)) (wp dws : Int)
    (valid : List PD) (f : Rat) (x : PD) :
    x ∈ (earlyDetectionSplit results wp dws valid f).train_participant_dates ↔
      x ∈ (earlyDetectionSplit results wp dws valid f).new_valid_dates
        ∧ x.1 ∈ (earlyDetectionSplit results wp dws valid f).train_participants := by
  rw [edsplit_train_pd_eq]
  simp [List.mem_filter]

theorem mem_edsplit_eval_pd (results : List (Pid × Timestamp)) (wp dws : Int)
    (valid : List PD) (f : Rat) (x : PD) :
    x ∈ (earlyDetectionSplit results wp dws valid f).eval_participant_dates ↔
      x ∈ (earlyDetectionSplit results wp dws valid f).new_valid_dates
        ∧ x.1 ∈ (earlyDetectionSplit results wp dws valid f).eval_participants := by
  rw [edsplit_eval_pd_eq]
  simp [List.mem_filter]

theorem edsplit_participants_disjoint (results : List (Pid × Timestamp)) (wp dws : Int)
    (valid : List PD) (f : Rat) {p : Pid}
    (hp : p ∈ (earlyDetectionSplit results wp dws valid f).train_participants) :
    p ∉ (earlyDetectionSplit results wp dws valid f).eval_participants := by
  obtain ⟨m, h1, h2⟩ := pySlice_take_drop
    (earlyDetectionSplit results wp dws valid f).valid_participants
    (earlyDetectionSplit results wp dws valid f).split_index
  rw [edsplit_train_participants] at hp
  rw [edsplit_eval_participants, h2]
  rw [h1] at hp
  exact fun hq => List.disjoint_take_drop (edsplit_nodup results wp dws valid f) le_rfl hp hq

theorem ed_init_ok {env : Env} {args : DatasetArgs} {t : TaskObj}
    (h : EarlyDetection.init env args = .ok t) :
    ∃ f wp dws mnd mxd dwsv mm leftover,
      t = EarlyDetection.build env f wp dws mnd mxd dwsv mm leftover := by
  unfold EarlyDetection.init at h
  dsimp only at h
  split at h
  · exact absurd h (by simp)
  · split at h
    · injection h with h'
      exact ⟨_, _, _, _, _, _, _, _, h'.symm⟩
    · exact absurd h (by simp)

theorem mlt_init_ok {env : Env} {bd : String} {args : DatasetArgs} {t : TaskObj}
    (h : MinuteLevelTask.init env bd args = .ok t) :
    ∃ sd ef mnd mxd dws mm leftover,
      t = MinuteLevelTask.build env bd sd ef mnd mxd dws mm leftover := by
  unfold MinuteLevelTask.init at h
  dsimp only at h
  split at h
  · exact absurd h (by simp)
  · injection h with h'
    exact ⟨_, _, _, _, _, _, _, h'.symm⟩

theorem gms_init_ok {env : Env} {args : DatasetArgs} {t : TaskObj}
    (h : GeqMeanSteps.init env args = .ok t) :
    ∃ t0, MinuteLevelTask.init env "MeanStepsDataset" args = .ok t0
      ∧ t = { t0 with is_classification := some true } := by
  unfold GeqMeanSteps.init at h
  split at h
  · exact absurd h (by simp)
  · injection h with h'
    exact ⟨_, by assumption, h'.symm⟩

theorem pfp_init_ok {env : Env} {args : DatasetArgs} {t : TaskObj}
    (h : PredictFluPos.init env args = .ok t) :
    ∃ t0, MinuteLevelTask.init env "MinuteLevelActivtyDataset" args = .ok t0
      ∧ t = { t0 with is_classification := some true } := by
  unfold PredictFluPos.init at h
  split at h
  · exact absurd h (by simp)
  · injection h with h'
    exact ⟨_, by assumption, h'.symm⟩

theorem ae_init_ok {env : Env} {args : DatasetArgs} {t : TaskObj}
    (h : Autoencode.init env args = .ok t) :
    ∃ t0, MinuteLevelTask.init env "AutoencodeDataset" args = .ok t0
      ∧ t = { t0 with is_autoencoder := some true } := by
  unfold Autoencode.init at h
  split at h
  · exact absurd h (by simp)
  · injection h with h'
    exact ⟨_, by assumption, h'.symm⟩

/-! ### A concrete test environment

One positive participant (id 7) with a single positive lab result on
2020-01-10 (epoch day 18271), triggered at 10:30 in the morning so the
day-flooring is exercised; the reader's ValidDateSet holds exactly the
label day `D`, `D+24d`, `D-24d` and `D+1d` for that participant, the
configuration of testable property 6 of the spec. -/

def envA : Env :=
  { mkLabResultsReader := fun pos_only =>
      if pos_only then ⟨[7], [(7, dayTs 18271 + 630)]⟩
      else ⟨[7, 8], [(7, dayTs 18271 + 630), (8, dayTs 18280)]⟩
    mkMinuteLevelReader := fun _ _ _ _ _ =>
      { participant_dates := [(7, dayTs 18271), (7, dayTs 18295), (7, dayTs 18247), (7, dayTs 18272)]
        split_participant_dates := fun _ _ => ([(1, dayTs 18250)], [(2, dayTs 18290)]) } }

def edArgsA : DatasetArgs := [("eval_frac", .vRat (1/2))]

def mltArgsA : DatasetArgs := [("split_date", .vStr "2020-02-01")]

/-- Extract the task from a successful construction (with a default
for the error case, never reached on the inputs used below). -/
def getTask (r : Except PyError TaskObj) (d : TaskObj) : TaskObj :=
  match r with
  | .ok t => t
  | .error _ => d

def mlrEmpty : MinuteLevelReader := ⟨[], fun _ _ => ([], [])⟩

def lrrEmpty : LabResultsReader := ⟨[], []⟩

def dsEmpty : Dataset := ⟨"", mlrEmpty, lrrEmpty, [], []⟩

def taskEmpty : TaskObj := ⟨none, none, dsEmpty, dsEmpty⟩

def edTaskA : TaskObj := getTask (EarlyDetection.init envA edArgsA) taskEmpty

def gmsTaskA : TaskObj := getTask (GeqMeanSteps.init envA mltArgsA) taskEmpty

def pfpTaskA : TaskObj := getTask (PredictFluPos.init envA mltArgsA) taskEmpty

def aeTaskA : TaskObj := getTask (Autoencode.init envA mltArgsA) taskEmpty

/-- The split returned by `envA`'s minute-level reader is disjoint
regardless of arguments (the collaborator contract of §4.3). -/
theorem envA_split_disjoint (pids : List Pid) (mnd mxd dws mm sd ef : PyValue) :
    (((envA.mkMinuteLevelReader pids mnd mxd dws mm).split_participant_dates sd ef).1).Disjoint
      (((envA.mkMinuteLevelReader pids mnd mxd dws mm).split_participant_dates sd ef).2) := by
  intro x hx hy
  simp [envA] at hx hy
  rw [hx] at hy
  simp [dayTs, minutesPerDay] at hy

/-! ### The claims -/

/-- C1: EarlyDetection window construction. For every positive lab
result the trigger timestamp is floored to day granularity giving
`label_date`, `delta = window_pad + day_window_size` days is computed,
and the candidate ParticipantDate set is the union over all results of
the three participant-tagged singletons intersected with the reader's
ValidDateSet; in particular with the defaults `day_window_size=4`,
`window_pad=20` (delta 24 days) and ValidDateSet exactly
`{D, D+24d, D-24d, D+1d}` for a participant with one positive result
on day `D` = 2020-01-10 (epoch day 18271), the intersected candidate
set is exactly `{D, D+24d, D-24d}`. -/
theorem earlyDetection_window_construction :
    (∀ (results : List (Pid × Timestamp)) (window_pad day_window_size : Int)
        (valid : List PD) (eval_frac : Rat) (x : PD),
      x ∈ (earlyDetectionSplit results window_pad day_window_size valid eval_frac).new_valid_dates ↔
        x ∈ valid ∧ ∃ r ∈ results, x.1 = r.1 ∧
          (x.2 = floorDay r.2
            ∨ x.2 = floorDay r.2 + minutesPerDay * (window_pad + day_window_size)
            ∨ x.2 = floorDay r.2 - minutesPerDay * (window_pad + day_window_size)))
    ∧ (earlyDetectionSplit [(7, dayTs 18271 + 630)] 20 4
        [(7, dayTs 18271), (7, dayTs 18271 + 24 * minutesPerDay),
         (7, dayTs 18271 - 24 * minutesPerDay), (7, dayTs 18271 + minutesPerDay)]
        (1/2)).new_valid_dates.toFinset
      = {(7, dayTs 18271), (7, dayTs 18271 + 24 * minutesPerDay),
         (7, dayTs 18271 - 24 * minutesPerDay)} :=
  ⟨mem_new_valid_dates, by decide⟩

/-- C7: task registry correctness. `get_task_with_name` returns the
task type on an exact match, fails with a `NameError` when no
attribute of the name exists, and fails with a `TypeError` when the
attribute exists but is not a type (such as the plain function
`classification_eval`). The lookup is modelled as a pure function, so
it has no side effects. -/
theorem task_registry_correctness :
    get_task_with_name "PredictFluPos" = .ok (.classAttr "PredictFluPos")
    ∧ (PyAttr.classAttr "PredictFluPos").isType = true
    ∧ get_task_with_name "not_a_task" = .error (.nameError "not_a_task is not a valid task.")
    ∧ get_task_with_name "classification_eval"
        = .error (.typeError "classification_eval is not a valid task.") :=
  ⟨rfl, rfl, rfl, rfl⟩

/-- C8: metrics adapter equivalence. For each classification task and
every threshold, `get_huggingface_metrics threshold` is a callable
that, on any prediction bundle, returns exactly
`evaluate_results pred.predictions pred.label_ids threshold`; in
particular on `label_ids = [1,0,1]`, `predictions = [0.9,0.2,0.6]`
with the default threshold `0.5`, where the common report is
`⟨tp=2, fp=0, tn=1, fn=0⟩`. -/
theorem metrics_adapter_equivalence :
    (∀ (threshold : Rat) (pred : PredBundle),
      GeqMeanSteps.get_huggingface_metrics threshold pred
          = GeqMeanSteps.evaluate_results pred.predictions pred.label_ids threshold
        ∧ PredictFluPos.get_huggingface_metrics threshold pred
          = PredictFluPos.evaluate_results pred.predictions pred.label_ids threshold
        ∧ EarlyDetection.get_huggingface_metrics threshold pred
          = EarlyDetection.evaluate_results pred.predictions pred.label_ids threshold)
    ∧ GeqMeanSteps.get_huggingface_metrics (1/2) ⟨[1, 0, 1], [9/10, 2/10, 6/10]⟩
        = GeqMeanSteps.evaluate_results [9/10, 2/10, 6/10] [1, 0, 1] (1/2)
    ∧ GeqMeanSteps.evaluate_results [9/10, 2/10, 6/10] [1, 0, 1] (1/2) = ⟨2, 0, 1, 0⟩ :=
  ⟨fun _ _ => ⟨rfl, rfl, rfl⟩, rfl, by with_unfolding_all rfl⟩

/-- C2: participant-exclusivity of the EarlyDetection split. For every
successfully constructed EarlyDetection task, no participant appears
in both the train and the eval ParticipantDate set (in both
directions), and every participant included in either set is a
positive participant: it carries the index of some row of the
positive-only lab-results reader's results table. -/
theorem earlyDetection_participant_exclusivity (env : Env) (args : DatasetArgs) (t : TaskObj)
    (h : EarlyDetection.init env args = .ok t) :
    (∀ P : Pid,
      ((∃ x ∈ t.eval_dataset.participant_dates, x.1 = P) →
        ∀ x ∈ t.train_dataset.participant_dates, x.1 ≠ P)
      ∧ ((∃ x ∈ t.train_dataset.participant_dates, x.1 = P) →
        ∀ x ∈ t.eval_dataset.participant_dates, x.1 ≠ P))
    ∧ t.train_dataset.lab_results_reader = env.mkLabResultsReader true
    ∧ (∀ x ∈ t.train_dataset.participant_dates ++ t.eval_dataset.participant_dates,
        ∃ r ∈ t.train_dataset.lab_results_reader.results, x.1 = r.1) := by
  obtain ⟨f, wp, dws, mnd, mxd, dwsv, mm, lo, rfl⟩ := ed_init_ok h
  dsimp only [EarlyDetection.build]
  refine ⟨fun P => ⟨?_, ?_⟩, rfl, ?_⟩
  · rintro ⟨x, hx, rfl⟩ y hy hyx
    rw [mem_edsplit_eval_pd] at hx
    rw [mem_edsplit_train_pd] at hy
    exact edsplit_participants_disjoint _ _ _ _ _ (hyx ▸ hy.2) hx.2
  · rintro ⟨x, hx, rfl⟩ y hy hyx
    rw [mem_edsplit_train_pd] at hx
    rw [mem_edsplit_eval_pd] at hy
    exact edsplit_participants_disjoint _ _ _ _ _ hx.2 (hyx ▸ hy.2)
  · intro x hx
    rw [List.mem_append] at hx
    have hnv : x ∈ (earlyDetectionSplit (env.mkLabResultsReader true).results wp dws
        (env.mkMinuteLevelReader (env.mkLabResultsReader true).participant_ids
          mnd mxd dwsv mm).participant_dates f).new_valid_dates := by
      rcases hx with hx | hx
      · exact ((mem_edsplit_train_pd _ _ _ _ _ _).mp hx).1
      · exact ((mem_edsplit_eval_pd _ _ _ _ _ _).mp hx).1
    obtain ⟨-, r, hr, hxr, -⟩ := (mem_new_valid_dates _ _ _ _ _ _).mp hnv
    exact ⟨r, hr, hxr⟩

/-- Witness for C2: the theorem applied to the concrete environment
`envA` with `eval_frac = 1/2`. -/
theorem earlyDetection_participant_exclusivity_witness :
    EarlyDetection.init envA edArgsA = .ok edTaskA
    ∧ ((∀ P : Pid,
      ((∃ x ∈ edTaskA.eval_dataset.participant_dates, x.1 = P) →
        ∀ x ∈ edTaskA.train_dataset.participant_dates, x.1 ≠ P)
      ∧ ((∃ x ∈ edTaskA.train_dataset.participant_dates, x.1 = P) →
        ∀ x ∈ edTaskA.eval_dataset.participant_dates, x.1 ≠ P))
    ∧ edTaskA.train_dataset.lab_results_reader = envA.mkLabResultsReader true
    ∧ (∀ x ∈ edTaskA.train_dataset.participant_dates ++ edTaskA.eval_dataset.participant_dates,
        ∃ r ∈ edTaskA.train_dataset.lab_results_reader.results, x.1 = r.1)) :=
  ⟨by with_unfolding_all rfl,
   earlyDetection_participant_exclusivity envA edArgsA edTaskA (by with_unfolding_all rfl)⟩

/-- C4: validity subset for EarlyDetection. Both datasets of a
successfully constructed EarlyDetection task share the same
minute-level reader, and every ParticipantDate in the train or eval
set is a member of that reader's reported ValidDateSet
(`participant_dates`); a date absent from the ValidDateSet is dropped
even if temporally in-window. -/
theorem earlyDetection_validity_subset (env : Env) (args : DatasetArgs) (t : TaskObj)
    (h : EarlyDetection.init env args = .ok t) :
    t.eval_dataset.minute_level_reader = t.train_dataset.minute_level_reader
    ∧ (∀ x ∈ t.train_dataset.participant_dates ++ t.eval_dataset.participant_dates,
        x ∈ t.train_dataset.minute_level_reader.participant_dates) := by
  obtain ⟨f, wp, dws, mnd, mxd, dwsv, mm, lo, rfl⟩ := ed_init_ok h
  dsimp only [EarlyDetection.build]
  refine ⟨rfl, ?_⟩
  intro x hx
  rw [List.mem_append] at hx
  have hnv : x ∈ (earlyDetectionSplit (env.mkLabResultsReader true).results wp dws
      (env.mkMinuteLevelReader (env.mkLabResultsReader true).participant_ids
        mnd mxd dwsv mm).participant_dates f).new_valid_dates := by
    rcases hx with hx | hx
    · exact ((mem_edsplit_train_pd _ _ _ _ _ _).mp hx).1
    · exact ((mem_edsplit_eval_pd _ _ _ _ _ _).mp hx).1
  exact ((mem_new_valid_dates _ _ _ _ _ _).mp hnv).1

/-- Witness for C4: the theorem applied to the concrete environment
`envA` with `eval_frac = 1/2`. -/
theorem earlyDetection_validity_subset_witness :
    EarlyDetection.init envA edArgsA = .ok edTaskA
    ∧ (edTaskA.eval_dataset.minute_level_reader = edTaskA.train_dataset.minute_level_reader
    ∧ (∀ x ∈ edTaskA.train_dataset.participant_dates ++ edTaskA.eval_dataset.participant_dates,
        x ∈ edTaskA.train_dataset.minute_level_reader.participant_dates)) :=
  ⟨by with_unfolding_all rfl,
   earlyDetection_validity_subset envA edArgsA edTaskA (by with_unfolding_all rfl)⟩

/-- C3: disjointness for all tasks. For every successfully constructed
task of each of the four kinds, the train and eval ParticipantDate
sets passed to the two dataset constructors have empty intersection;
for the three date-threshold tasks this holds under the collaborator
hypothesis that the reader's `split_participant_dates` returns two
disjoint sets, while for EarlyDetection it holds unconditionally. -/
theorem all_tasks_split_disjointness (env : Env) (args1 args2 args3 args4 : DatasetArgs)
    (t1 t2 t3 t4 : TaskObj)
    (hsplit : ∀ (pids : List Pid) (mnd mxd dws mm sd ef : PyValue),
      (((env.mkMinuteLevelReader pids mnd mxd dws mm).split_participant_dates sd ef).1).Disjoint
        (((env.mkMinuteLevelReader pids mnd mxd dws mm).split_participant_dates sd ef).2))
    (h1 : GeqMeanSteps.init env args1 = .ok t1)
    (h2 : PredictFluPos.init env args2 = .ok t2)
    (h3 : Autoencode.init env args3 = .ok t3)
    (h4 : EarlyDetection.init env args4 = .ok t4) :
    t1.train_dataset.participant_dates.Disjoint t1.eval_dataset.participant_dates
    ∧ t2.train_dataset.participant_dates.Disjoint t2.eval_dataset.participant_dates
    ∧ t3.train_dataset.participant_dates.Disjoint t3.eval_dataset.participant_dates
    ∧ t4.train_dataset.participant_dates.Disjoint t4.eval_dataset.participant_dates := by
  have key : ∀ (bd : String) (args : DatasetArgs) (t : TaskObj),
      MinuteLevelTask.init env bd args = .ok t →
      t.train_dataset.participant_dates.Disjoint t.eval_dataset.participant_dates := by
    intro bd args t ht
    obtain ⟨sd, ef, mnd, mxd, dws, mm, lo, rfl⟩ := mlt_init_ok ht
    dsimp only [MinuteLevelTask.build]
    exact hsplit _ _ _ _ _ _ _
  refine ⟨?_, ?_, ?_, ?_⟩
  · obtain ⟨u, hu, rfl⟩ := gms_init_ok h1
    exact key _ _ u hu
  · obtain ⟨u, hu, rfl⟩ := pfp_init_ok h2
    exact key _ _ u hu
  · obtain ⟨u, hu, rfl⟩ := ae_init_ok h3
    exact key _ _ u hu
  · obtain ⟨f, wp, dws, mnd, mxd, dwsv, mm, lo, rfl⟩ := ed_init_ok h4
    dsimp only [EarlyDetection.build]
    intro x hx hy
    rw [mem_edsplit_train_pd] at hx
    rw [mem_edsplit_eval_pd] at hy
    exact edsplit_participants_disjoint _ _ _ _ _ hx.2 hy.2

/-- Witness for C3: the theorem applied to the concrete environment
`envA`, whose reader splits are disjoint by `envA_split_disjoint`. -/
theorem all_tasks_split_disjointness_witness :
    GeqMeanSteps.init envA mltArgsA = .ok gmsTaskA
    ∧ PredictFluPos.init envA mltArgsA = .ok pfpTaskA
    ∧ Autoencode.init envA mltArgsA = .ok aeTaskA
    ∧ EarlyDetection.init envA edArgsA = .ok edTaskA
    ∧ (gmsTaskA.train_dataset.participant_dates.Disjoint gmsTaskA.eval_dataset.participant_dates
      ∧ pfpTaskA.train_dataset.participant_dates.Disjoint pfpTaskA.eval_dataset.participant_dates
      ∧ aeTaskA.train_dataset.participant_dates.Disjoint aeTaskA.eval_dataset.participant_dates
      ∧ edTaskA.train_dataset.participant_dates.Disjoint edTaskA.eval_dataset.participant_dates) :=
  ⟨rfl, rfl, rfl, by with_unfolding_all rfl,
   all_tasks_split_disjointness envA mltArgsA mltArgsA mltArgsA edArgsA
     gmsTaskA pfpTaskA aeTaskA edTaskA envA_split_disjoint rfl rfl rfl
     (by with_unfolding_all rfl)⟩

/-- Partition arithmetic of the Python slices `l[:int((1-f)*n)]` and
`l[int((1-f)*n):]` for `f` in `(0, 1]`: the two slices concatenate
back to `l`, the prefix has exactly `⌊(1-f)*n⌋` elements, and the
suffix has the remaining `n - ⌊(1-f)*n⌋`. -/
theorem pySlice_partition_len {α : Type} (l : List α) (f : Rat) (hf0 : 0 < f) (hf1 : f ≤ 1) :
    pySliceTo l (pyInt ((1 - f) * (l.length : Rat)))
        ++ pySliceFrom l (pyInt ((1 - f) * (l.length : Rat))) = l
    ∧ ((pySliceTo l (pyInt ((1 - f) * (l.length : Rat)))).length : Int)
      = ⌊(1 - f) * (l.length : Rat)⌋
    ∧ (pySliceFrom l (pyInt ((1 - f) * (l.length : Rat)))).length
      = l.length - (pySliceTo l (pyInt ((1 - f) * (l.length : Rat)))).length := by
  have hq0 : (0:Rat) ≤ (1 - f) * (l.length : Rat) :=
    mul_nonneg (by linarith) (Nat.cast_nonneg _)
  have hkf : pyInt ((1 - f) * (l.length : Rat)) = ⌊(1 - f) * (l.length : Rat)⌋ := by
    unfold pyInt
    rw [if_neg (not_lt.mpr hq0)]
  have hk0 : 0 ≤ pyInt ((1 - f) * (l.length : Rat)) := hkf ▸ Int.floor_nonneg.mpr hq0
  have hkn : pyInt ((1 - f) * (l.length : Rat)) ≤ (l.length : Int) := by
    rw [hkf]
    calc ⌊(1 - f) * (l.length : Rat)⌋ ≤ ⌊((l.length : Nat) : Rat)⌋ :=
          Int.floor_le_floor (mul_le_of_le_one_left (Nat.cast_nonneg _) (by linarith))
      _ = (l.length : Int) := Int.floor_natCast _
  have htake : pySliceTo l (pyInt ((1 - f) * (l.length : Rat)))
      = l.take (pyInt ((1 - f) * (l.length : Rat))).toNat := by
    unfold pySliceTo
    rw [if_neg (not_lt.mpr hk0)]
  have hdrop : pySliceFrom l (pyInt ((1 - f) * (l.length : Rat)))
      = l.drop (pyInt ((1 - f) * (l.length : Rat))).toNat := by
    unfold pySliceFrom
    rw [if_neg (not_lt.mpr hk0)]
  refine ⟨?_, ?_, ?_⟩
  · rw [htake, hdrop]
    exact List.take_append_drop _ _
  · rw [htake, List.length_take, ← hkf]
    omega
  · rw [htake, hdrop, List.length_drop, List.length_take]
    omega

/-- C5: EarlyDetection participant partition. The distinct
participants of the intersected candidate set are partitioned at index
`⌊(1 - eval_frac) * n⌋` into a train prefix and an eval suffix (they
concatenate back to the whole participant list, the train list having
exactly `⌊(1 - eval_frac) * n⌋` elements and the eval list the
remaining `n - ⌊(1 - eval_frac) * n⌋`, for every `eval_frac` in
`(0, 1]` and every candidate set), and the two final ParticipantDate
sets are the intersected candidate set filtered by membership of the
pair's participant in the respective list. -/
theorem earlyDetection_participant_partition (results : List (Pid × Timestamp))
    (window_pad day_window_size : Int) (valid : List PD) (f : Rat)
    (hf0 : 0 < f) (hf1 : f ≤ 1) :
    (earlyDetectionSplit results window_pad day_window_size valid f).train_participants
        ++ (earlyDetectionSplit results window_pad day_window_size valid f).eval_participants
      = (earlyDetectionSplit results window_pad day_window_size valid f).valid_participants
    ∧ ((earlyDetectionSplit results window_pad day_window_size valid f).train_participants.length : Int)
      = ⌊(1 - f) * ((earlyDetectionSplit results window_pad day_window_size valid f).valid_participants.length : Rat)⌋
    ∧ (earlyDetectionSplit results window_pad day_window_size valid f).eval_participants.length
      = (earlyDetectionSplit results window_pad day_window_size valid f).valid_participants.length
        - (earlyDetectionSplit results window_pad day_window_size valid f).train_participants.length
    ∧ (earlyDetectionSplit results window_pad day_window_size valid f).train_participant_dates
      = (earlyDetectionSplit results window_pad day_window_size valid f).new_valid_dates.filter
          (fun x => decide (x.1 ∈ (earlyDetectionSplit results window_pad day_window_size valid f).train_participants))
    ∧ (earlyDetectionSplit results window_pad day_window_size valid f).eval_participant_dates
      = (earlyDetectionSplit results window_pad day_window_size valid f).new_valid_dates.filter
          (fun x => decide (x.1 ∈ (earlyDetectionSplit results window_pad day_window_size valid f).eval_participants)) := by
  obtain ⟨hA, hB, hC⟩ := pySlice_partition_len
    (earlyDetectionSplit results window_pad day_window_size valid f).valid_participants f hf0 hf1
  rw [edsplit_train_participants, edsplit_eval_participants, edsplit_split_index]
  exact ⟨hA, hB, hC, edsplit_train_pd_eq _ _ _ _ _, edsplit_eval_pd_eq _ _ _ _ _⟩

/-- The positive results table of the concrete environment. -/
def edResultsA : List (Pid × Timestamp) := [(7, dayTs 18271 + 630)]

/-- The concrete ValidDateSet `{D, D+24d, D-24d, D+1d}` of `envA`. -/
def edValidA : List PD :=
  [(7, dayTs 18271), (7, dayTs 18271 + 24 * minutesPerDay),
   (7, dayTs 18271 - 24 * minutesPerDay), (7, dayTs 18271 + minutesPerDay)]

/-- The concrete split computation at `eval_frac = 1/2`. -/
def edSplitA : EDSplit := earlyDetectionSplit edResultsA 20 4 edValidA (1/2)

/-- Witness for C5: the theorem applied at `eval_frac = 1/2` on the
concrete result table and ValidDateSet. -/
theorem earlyDetection_participant_partition_witness :
    (0:Rat) < 1/2 ∧ ((1:Rat)/2 ≤ 1)
    ∧ (edSplitA.train_participants ++ edSplitA.eval_participants = edSplitA.valid_participants
      ∧ (edSplitA.train_participants.length : Int)
        = ⌊(1 - (1:Rat)/2) * (edSplitA.valid_participants.length : Rat)⌋
      ∧ edSplitA.eval_participants.length
        = edSplitA.valid_participants.length - edSplitA.train_participants.length
      ∧ edSplitA.train_participant_dates = edSplitA.new_valid_dates.filter
          (fun x => decide (x.1 ∈ edSplitA.train_participants))
      ∧ edSplitA.eval_participant_dates = edSplitA.new_valid_dates.filter
          (fun x => decide (x.1 ∈ edSplitA.eval_participants))) :=
  ⟨by norm_num, by norm_num,
   earlyDetection_participant_partition edResultsA 20 4 edValidA (1/2)
     (by norm_num) (by norm_num)⟩

/-- C6: required-config failure. Constructing `GeqMeanSteps` or
`PredictFluPos` when `dataset_args` does not contain the key
`split_date` fails with the `KeyError`-kind configuration error, and
constructing `EarlyDetection` without the key `eval_frac` fails
likewise; construction returns the error synchronously, before any
dataset is built. -/
theorem required_config_failure (env : Env) (args1 args2 : DatasetArgs)
    (h1 : lookupArg args1 "split_date" = none)
    (h2 : lookupArg args2 "eval_frac" = none) :
    GeqMeanSteps.init env args1
        = .error (.keyError "Must provide a date for splitting train and ")
    ∧ PredictFluPos.init env args1
        = .error (.keyError "Must provide a date for splitting train and ")
    ∧ EarlyDetection.init env args2
        = .error (.keyError "Must provide an eval fraction for splitting train and test") := by
  have hp1 := popArg_lookup_none PyValue.vNone h1
  have hp2 := popArg_lookup_none PyValue.vNone h2
  refine ⟨?_, ?_, ?_⟩
  · simp [GeqMeanSteps.init, MinuteLevelTask.init, hp1, PyValue.truthy]
  · simp [PredictFluPos.init, MinuteLevelTask.init, hp1, PyValue.truthy]
  · simp [EarlyDetection.init, hp2, PyValue.truthy]

/-- Witness for C6: the empty configuration mapping contains neither
key, and every construction fails with the configuration error. -/
theorem required_config_failure_witness :
    lookupArg [] "split_date" = none ∧ lookupArg [] "eval_frac" = none
    ∧ (GeqMeanSteps.init envA []
          = .error (.keyError "Must provide a date for splitting train and ")
      ∧ PredictFluPos.init envA []
          = .error (.keyError "Must provide a date for splitting train and ")
      ∧ EarlyDetection.init envA []
          = .error (.keyError "Must provide an eval fraction for splitting train and test")) :=
  ⟨rfl, rfl, required_config_failure envA [] [] rfl rfl⟩

/-- Counterexample to C9: a successfully constructed `EarlyDetection`
task on which the `is_autoencoder` attribute was never assigned
(`none`, i.e. accessing it raises `AttributeError`), refuting the
claim that every constructed task, including EarlyDetection, has both
flag attributes defined. `EarlyDetection.__init__` never calls
`super().__init__()`, so `Task.__init__`'s flag initialization never
runs. -/
theorem capability_flags_counterexample :
    EarlyDetection.init envA edArgsA = .ok edTaskA ∧ edTaskA.is_autoencoder = none :=
  ⟨by with_unfolding_all rfl, by with_unfolding_all rfl⟩

/-- C9 as amended: `Task.__init__` does set every supported flag to
`False`, but no concrete constructor invokes it
(`MinuteLevelTask.__init__` and `EarlyDetection.__init__` never call
`super().__init__()`); consequently every successfully constructed
task has exactly the flag set by its concrete subtype defined (to
`True`) and the other flag attribute undefined. -/
theorem capability_flags_amended (env : Env) (a1 a2 a3 a4 : DatasetArgs)
    (t1 t2 t3 t4 : TaskObj) (o : TaskFlags)
    (h1 : GeqMeanSteps.init env a1 = .ok t1)
    (h2 : PredictFluPos.init env a2 = .ok t2)
    (h3 : Autoencode.init env a3 = .ok t3)
    (h4 : EarlyDetection.init env a4 = .ok t4) :
    Task.init o = ⟨some false, some false⟩
    ∧ (t1.is_classification = some true ∧ t1.is_autoencoder = none)
    ∧ (t2.is_classification = some true ∧ t2.is_autoencoder = none)
    ∧ (t3.is_autoencoder = some true ∧ t3.is_classification = none)
    ∧ (t4.is_classification = some true ∧ t4.is_autoencoder = none) := by
  obtain ⟨u1, hu1, rfl⟩ := gms_init_ok h1
  obtain ⟨sd1, ef1, m1, m2, m3, m4, lo1, rfl⟩ := mlt_init_ok hu1
  obtain ⟨u2, hu2, rfl⟩ := pfp_init_ok h2
  obtain ⟨sd2, ef2, n1, n2, n3, n4, lo2, rfl⟩ := mlt_init_ok hu2
  obtain ⟨u3, hu3, rfl⟩ := ae_init_ok h3
  obtain ⟨sd3, ef3, k1, k2, k3, k4, lo3, rfl⟩ := mlt_init_ok hu3
  obtain ⟨f, wp, dws, q1, q2, q3, q4, lo4, rfl⟩ := ed_init_ok h4
  exact ⟨rfl, ⟨rfl, rfl⟩, ⟨rfl, rfl⟩, ⟨rfl, rfl⟩, ⟨rfl, rfl⟩⟩

/-- Witness for the amended C9: the four concrete constructions in
`envA`. -/
theorem capability_flags_amended_witness :
    GeqMeanSteps.init envA mltArgsA = .ok gmsTaskA
    ∧ PredictFluPos.init envA mltArgsA = .ok pfpTaskA
    ∧ Autoencode.init envA mltArgsA = .ok aeTaskA
    ∧ EarlyDetection.init envA edArgsA = .ok edTaskA
    ∧ (Task.init ⟨none, none⟩ = ⟨some false, some false⟩
      ∧ (gmsTaskA.is_classification = some true ∧ gmsTaskA.is_autoencoder = none)
      ∧ (pfpTaskA.is_classification = some true ∧ pfpTaskA.is_autoencoder = none)
      ∧ (aeTaskA.is_autoencoder = some true ∧ aeTaskA.is_classification = none)
      ∧ (edTaskA.is_classification = some true ∧ edTaskA.is_autoencoder = none)) :=
  ⟨rfl, rfl, rfl, by with_unfolding_all rfl,
   capability_flags_amended envA mltArgsA mltArgsA mltArgsA edArgsA
     gmsTaskA pfpTaskA aeTaskA edTaskA ⟨none, none⟩ rfl rfl rfl
     (by with_unfolding_all rfl)⟩

/-- C10: falsy-present configuration values are rejected like absent
ones, because the source tests truthiness (`if not eval_frac`, `if not
split_date`) rather than key presence: `EarlyDetection` with
`eval_frac` present but falsy raises the same `KeyError`-kind error as
when the key is absent, and the three `MinuteLevelTask`-based
constructors behave the same for a falsy `split_date`. -/
theorem falsy_config_rejected (env : Env) (args1 args2 : DatasetArgs) (v w : PyValue)
    (h1 : lookupArg args1 "eval_frac" = some v) (hv : v.truthy = false)
    (h2 : lookupArg args2 "split_date" = some w) (hw : w.truthy = false) :
    EarlyDetection.init env args1
        = .error (.keyError "Must provide an eval fraction for splitting train and test")
    ∧ GeqMeanSteps.init env args2
        = .error (.keyError "Must provide a date for splitting train and ")
    ∧ PredictFluPos.init env args2
        = .error (.keyError "Must provide a date for splitting train and ")
    ∧ Autoencode.init env args2
        = .error (.keyError "Must provide a date for splitting train and ") := by
  have hp1 := popArg_lookup_some PyValue.vNone h1
  have hp2 := popArg_lookup_some PyValue.vNone h2
  refine ⟨?_, ?_, ?_, ?_⟩
  · simp [EarlyDetection.init, hp1, hv]
  · simp [GeqMeanSteps.init, MinuteLevelTask.init, hp2, hw]
  · simp [PredictFluPos.init, MinuteLevelTask.init, hp2, hw]
  · simp [Autoencode.init, MinuteLevelTask.init, hp2, hw]

def falsyArgsED : DatasetArgs := [("eval_frac", .vInt 0)]

def falsyArgsMLT : DatasetArgs := [("split_date", .vStr "")]

/-- Witness for C10: `eval_frac` bound to the integer `0` and
`split_date` bound to the empty string are present but falsy, and
every construction fails with the configuration error. -/
theorem falsy_config_rejected_witness :
    lookupArg falsyArgsED "eval_frac" = some (.vInt 0)
    ∧ (PyValue.vInt 0).truthy = false
    ∧ lookupArg falsyArgsMLT "split_date" = some (.vStr "")
    ∧ (PyValue.vStr "").truthy = false
    ∧ (EarlyDetection.init envA falsyArgsED
          = .error (.keyError "Must provide an eval fraction for splitting train and test")
      ∧ GeqMeanSteps.init envA falsyArgsMLT
          = .error (.keyError "Must provide a date for splitting train and ")
      ∧ PredictFluPos.init envA falsyArgsMLT
          = .error (.keyError "Must provide a date for splitting train and ")
      ∧ Autoencode.init envA falsyArgsMLT
          = .error (.keyError "Must provide a date for splitting train and ")) :=
  ⟨rfl, rfl, rfl, rfl,
   falsy_config_rejected envA falsyArgsED falsyArgsMLT (.vInt 0) (.vStr "") rfl rfl rfl rfl⟩

end Homekit
